import Mathlib

/-!
Shallow embedding of the combat-resolution, ability-scripting and
target-selection core of the `sulis` repository (sulis_module/src/rules.rs,
sulis_state/src/actor_state.rs, sulis_state/src/script/mod.rs,
sulis_state/src/script/targeter.rs), with theorems settling the frozen
claims about it.

Modelling conventions:
* Rust `u32`/`u8` fields become `Nat`, `i32` fields become `Int`.
  Arithmetic on machine integers is modelled as exact integer arithmetic:
  in Rust, overflow of `+`/`-` is a program error (panic in debug builds,
  two's-complement wrap in release builds), so exact arithmetic is the
  defined behaviour on all inputs the program may legally compute with.
  `as` casts, by contrast, are total, well-defined wrapping conversions in
  Rust, and are modelled exactly (see `u32_as_i32`).
* Rust `f32` values (damage multipliers, radii) become `Rat`; no claim
  depends on float rounding.
* Randomness (`rand::thread_rng`) and functions of the repository that are
  not part of the provided sources are passed in as explicit parameters
  (oracles) or modelled from the spec, each marked in its doc comment.
-/

namespace Sulis

/-- Hit tier of a single attack roll (sulis_rules `HitKind`, re-exported and
consumed by rules.rs and actor_state.rs). -/
inductive HitKind where
  | Miss
  | Graze
  | Hit
  | Crit
deriving DecidableEq, Repr

/-- Numeric ordering of hit tiers, `Miss < Graze < Hit < Crit`, used to state
monotonicity of the attack roll. -/
def HitKind.tier : HitKind → Nat
  | HitKind.Miss => 0
  | HitKind.Graze => 1
  | HitKind.Hit => 2
  | HitKind.Crit => 3

/-- The rules configuration record (sulis_module/src/rules.rs, `struct Rules`).
`u32` fields are `Nat`, `i32` fields are `Int`, `f32` multipliers are `Rat`.
The final two members (`loot_drop_prop`, `xp_for_next_level`) do not appear
in the included rules.rs but are used by its caller actor_state.rs
(`Module::rules().loot_drop_prop`, `rules.get_xp_for_next_level`); they are
modelled from those call sites as an opaque prop id and an opaque xp
threshold function. -/
structure Rules where
  base_ap : Nat
  movement_ap : Nat
  attack_ap : Nat
  base_initiative : Int
  graze_percentile : Nat
  hit_percentile : Nat
  crit_percentile : Nat
  graze_damage_multiplier : Rat
  hit_damage_multiplier : Rat
  crit_damage_multiplier : Rat
  dual_wield_damage_multiplier : Rat
  base_attribute : Int
  builder_max_attribute : Int
  builder_min_attribute : Int
  builder_attribute_points : Int
  loot_drop_prop : String
  xp_for_next_level : Nat → Nat

/-- `Rules::attack_roll` (rules.rs lines 51-68), with the random roll
`rand::thread_rng().gen_range(1, 101)` made an explicit parameter.
The Rust code computes `let result = (roll + accuracy - defense) as u32`
only after the guard `roll + accuracy < defense` has failed, so the cast
value is the nonnegative difference, i.e. `Int.toNat` (the local `result`
is inlined here); the `u32` result is then compared against the `u32`
percentile thresholds. -/
def Rules.attack_roll (self : Rules) (roll accuracy defense : Int) : HitKind :=
  if roll + accuracy < defense then HitKind.Miss
  else if (roll + accuracy - defense).toNat ≥ self.crit_percentile then HitKind.Crit
  else if (roll + accuracy - defense).toNat ≥ self.hit_percentile then HitKind.Hit
  else if (roll + accuracy - defense).toNat ≥ self.graze_percentile then HitKind.Graze
  else HitKind.Miss

/-- A concrete rules configuration with the thresholds used by the
end-to-end example of the spec (graze 30 / hit 60 / crit 90); the remaining
fields take arbitrary concrete values, which the attack roll does not read. -/
def sampleRules : Rules :=
  { base_ap := 4
    movement_ap := 1
    attack_ap := 2
    base_initiative := 10
    graze_percentile := 30
    hit_percentile := 60
    crit_percentile := 90
    graze_damage_multiplier := 1/2
    hit_damage_multiplier := 1
    crit_damage_multiplier := 2
    dual_wield_damage_multiplier := 3/4
    base_attribute := 10
    builder_max_attribute := 18
    builder_min_attribute := 3
    builder_attribute_points := 30
    loot_drop_prop := "loot"
    xp_for_next_level := fun n => (n + 1) * 1000 }

/-! ## Actor state (sulis_state/src/actor_state.rs) and its collaborators -/

/-- The six bounded attribute counters (sulis_rules/src/attribute.rs,
`struct AttributeList`); `u8` counters become `Nat`. -/
structure AttributeList where
  strength : Nat
  dexterity : Nat
  endurance : Nat
  perception : Nat
  intellect : Nat
  wisdom : Nat
deriving DecidableEq, Repr

/-- Modelled from the spec: a weapon attack record carried in bonus bundles
(sulis_rules's attack type is not among the provided sources; §4.1 describes
it as a damage range rolled per attack). -/
structure Attack where
  damage_min : Nat
  damage_max : Nat
deriving DecidableEq, Repr

/-- Modelled from the spec: a bundle of numeric bonuses plus an optional
weapon attack (sulis_rules's bonus-list type is not among the provided
sources). actor_state.rs reads exactly the `attack` member
(`equippable.bonuses.attack`, `race.base_stats.attack`) and otherwise passes
the bundle whole to `StatList::add`; the numeric payload is therefore kept
as a single opaque integer. -/
structure Bonuses where
  attack : Option Attack
  payload : Int
deriving DecidableEq, Repr

/-- Modelled from the spec: `StatList` (§3, §4.1; sulis_rules's stat_list.rs
is not among the provided sources). actor_state.rs builds it with
`StatList::new(attrs)`, the field write `stats.initiative = ...`,
`add`/`add_multiple` calls per bonus source and a terminal
`finalize(attacks, multiplier, base_attribute)`, and reads `accuracy`,
`defense`, `attacks` and `max_hp`. We record the aggregation trace (the
list of accumulated bonus bundles) rather than the numeric folds, which no
claim depends on; `accuracy`, `defense` and `max_hp` are snapshot fields. -/
structure StatList where
  attrs : AttributeList
  initiative : Int
  bonuses : List Bonuses
  attacks : List Attack
  multiplier : Rat
  base_attribute : Int
  accuracy : Int
  defense : Int
  max_hp : Int
deriving DecidableEq, Repr

/-- `StatList::new(attrs)`: a fresh snapshot with no accumulated bonuses. -/
def StatList.new (attrs : AttributeList) : StatList :=
  { attrs := attrs
    initiative := 0
    bonuses := []
    attacks := []
    multiplier := 1
    base_attribute := 0
    accuracy := 0
    defense := 0
    max_hp := 0 }

/-- `StatList::add(bonuses)`: accumulate one bonus bundle. -/
def StatList.add (s : StatList) (b : Bonuses) : StatList :=
  { s with bonuses := s.bonuses ++ [b] }

/-- `StatList::add_multiple(bonuses, times)`: accumulate a bundle a number
of times (per-level class bonuses). -/
def StatList.add_multiple (s : StatList) (b : Bonuses) (times : Nat) : StatList :=
  { s with bonuses := s.bonuses ++ List.replicate times b }

/-- `StatList::finalize(attacks, multiplier, base_attribute)`: fix the attack
list and the damage multiplier of the snapshot. -/
def StatList.finalize (s : StatList) (attacks : List Attack) (multiplier : Rat)
    (base_attribute : Int) : StatList :=
  { s with attacks := attacks, multiplier := multiplier, base_attribute := base_attribute }

/-- Modelled from the spec: the active payload of an ability (§3 `Ability`:
"optional active payload (script body, ap cost, duration)";
sulis_module's ability.rs is not among the provided sources). -/
structure ActiveAbility where
  script : String
  ap : Nat
  duration : Nat
deriving DecidableEq, Repr

/-- Modelled from the spec: an immutable authored ability record (§3);
`active = none` marks a passive ability. -/
structure Ability where
  id : String
  name : String
  active : Option ActiveAbility
deriving DecidableEq, Repr

/-- Modelled from the spec: a loot table (§4.1; sulis_module's loot-table
type is not among the provided sources); kept as an opaque id, generation
itself is an oracle parameter of death handling. -/
structure Loot where
  id : String
deriving DecidableEq, Repr

/-- Modelled from the spec: the kill reward consumed by
`ActorState::check_death` (`reward.xp`, `reward.loot`, `reward.loot_chance`). -/
structure Reward where
  xp : Nat
  loot : Option Loot
  loot_chance : Nat
deriving DecidableEq, Repr

/-- Modelled from the spec: a race record; actor_state.rs reads
`race.base_stats` and `race.base_stats.attack`. -/
structure Race where
  base_stats : Bonuses
deriving DecidableEq, Repr

/-- Modelled from the spec: a class record; actor_state.rs reads
`class.bonuses_per_level`. -/
structure CharClass where
  bonuses_per_level : Bonuses
deriving DecidableEq, Repr

/-- Modelled from the spec: the immutable authored actor record
(sulis_module's actor.rs is not among the provided sources), restricted to
the fields actor_state.rs reads: attributes, abilities, race, class levels,
total level, authored xp and the optional kill reward. Appearance fields
(sex, hair/skin color, hue, image layers) are omitted: rendering is out of
scope and no claim concerns them. -/
structure Actor where
  id : String
  name : String
  attributes : AttributeList
  abilities : List Ability
  race : Race
  levels : List (CharClass × Nat)
  total_level : Nat
  xp : Nat
  reward : Option Reward
deriving DecidableEq, Repr

/-- Modelled from the spec: the equippable payload of an item; actor_state.rs
reads `equippable.bonuses`. -/
structure Equippable where
  bonuses : Bonuses
deriving DecidableEq, Repr

/-- Modelled from the spec: an item in the inventory; actor_state.rs reads
`item_state.item.equippable` (the item indirection is flattened). -/
structure ItemState where
  equippable : Option Equippable
deriving DecidableEq, Repr

/-- Modelled from the spec: the actor's inventory (sulis_state's
inventory.rs is not among the provided sources); actor_state.rs iterates
`inventory.equipped_iter()`, kept here as the list of equipped items. -/
structure Inventory where
  equipped : List ItemState
deriving DecidableEq, Repr

/-- Modelled from the spec: `AbilityState` (§4.4; sulis_state's
ability_state.rs is not among the provided sources). Per-actor mutable
record tracking activation/cooldown for one ability id: `activate_ap` is
the activation AP cost, `cooldown` the cooldown duration entered on
activation, `remaining_duration` the cooldown left in milliseconds. -/
structure AbilityState where
  ability_id : String
  activate_ap : Nat
  cooldown : Nat
  remaining_duration : Nat
deriving DecidableEq, Repr

/-- Modelled from the spec: `AbilityState::new(ability)`; created only for
abilities with an active payload, starting off cooldown. -/
def AbilityState.new (ability : Ability) : AbilityState :=
  match ability.active with
  | some active =>
    { ability_id := ability.id
      activate_ap := active.ap
      cooldown := active.duration
      remaining_duration := 0 }
  | none =>
    { ability_id := ability.id, activate_ap := 0, cooldown := 0, remaining_duration := 0 }

/-- Modelled from the spec: the ability-state reports available iff it is
not on cooldown (§4.4, glossary). -/
def AbilityState.is_available (s : AbilityState) : Bool :=
  s.remaining_duration == 0

/-- Modelled from the spec: `activate` "marks cooldown start" (§4.4). -/
def AbilityState.activate (s : AbilityState) : AbilityState :=
  { s with remaining_duration := s.cooldown }

/-- Modelled from the spec: cooldown recovery ticked by
`update(millis_elapsed)` (§4.4); Rust `u32` subtraction saturates here only
because the missing source clamps at zero, matching Nat subtraction. -/
def AbilityState.update (s : AbilityState) (millis_elapsed : Nat) : AbilityState :=
  { s with remaining_duration := s.remaining_duration - millis_elapsed }

/-- Modelled from the spec: `Effect`, a timed modifier bundle (§3);
`update` decrements the remaining duration, `is_removal` reports expiry
(actor_state.rs retains effects with `!e.is_removal()`). -/
structure Effect where
  bonuses : Bonuses
  total_duration : Nat
  remaining : Nat
deriving DecidableEq, Repr

/-- Modelled from the spec: tick one effect's remaining duration. -/
def Effect.update (e : Effect) (millis_elapsed : Nat) : Effect :=
  { e with remaining := e.remaining - millis_elapsed }

/-- Modelled from the spec: an effect is flagged for removal once its
remaining duration reaches zero. -/
def Effect.is_removal (e : Effect) : Bool :=
  e.remaining == 0

/-- Colors from sulis_core's ui color module (not among the provided
sources); only the two constants actor_state.rs uses are modelled. -/
inductive Color where
  | gray
  | red
deriving DecidableEq, Repr

/-- A map coordinate (sulis_core's Point). -/
structure Point where
  x : Int
  y : Int
deriving DecidableEq, Repr

/-- Prop data spawned as a loot container (sulis_module's area::PropData),
restricted to the fields check_death writes: the prop id, the location and
the rolled items (items kept as ids). -/
structure PropData where
  prop : String
  location : Point
  items : List String
deriving DecidableEq, Repr

/-- The per-area mutable state, restricted to what the embedded operations
touch: the props added by loot drops and the turn timer's activity flag
(read by the script `activate` binding). -/
structure AreaState where
  props : List PropData
  turn_timer_active : Bool
deriving DecidableEq, Repr

/-- `ActorState` (actor_state.rs lines 30-42): the mutable combat state of
one actor. `hp` is `i32` (becomes `Int`), `ap` and `xp` are `u32` (become
`Nat`). The `HashMap<String, AbilityState>` becomes an association list
keyed by ability id. The rendering image and the change-listener list are
omitted: listeners only re-broadcast state that is already in the record,
and no claim concerns them. -/
structure ActorState where
  actor : Actor
  stats : StatList
  hp : Int
  ap : Nat
  xp : Nat
  has_level_up : Bool
  inventory : Inventory
  effects : List Effect
  ability_states : List (String × AbilityState)
deriving DecidableEq, Repr

/-- `HashMap::insert` on the association list: replace the value when the
key is present, append the pair otherwise. -/
def assoc_insert {β : Type} (l : List (String × β)) (k : String) (v : β) :
    List (String × β) :=
  if l.any (fun p => p.1 == k) then l.map (fun p => if p.1 == k then (k, v) else p)
  else l ++ [(k, v)]

/-- `ActorState::can_activate` (actor_state.rs lines 84-93): true iff an
ability-state for the id exists, the actor's AP is not below its activation
cost, and the state is available. The Rust method takes `&self`: it is a
pure query and can mutate nothing, which the embedding reflects by returning
only a `Bool`. -/
def ActorState.can_activate (s : ActorState) (id : String) : Bool :=
  match s.ability_states.lookup id with
  | none => false
  | some state => if s.ap < state.activate_ap then false else state.is_available

/-- `ActorState::activate_ability_state` (actor_state.rs lines 95-100):
mark the ability-state for the id, when present, as activated (cooldown
start); no-op when absent. -/
def ActorState.activate_ability_state (s : ActorState) (id : String) : ActorState :=
  { s with ability_states :=
      s.ability_states.map (fun p => if p.1 = id then (p.1, p.2.activate) else p) }

/-- `ActorState::remove_ap` (actor_state.rs lines 307-315): saturating AP
decrement, all in `u32`. -/
def ActorState.remove_ap (s : ActorState) (ap : Nat) : ActorState :=
  if ap > s.ap then { s with ap := 0 } else { s with ap := s.ap - ap }

/-- Rust's `as i32` cast on a `u32` value: a total, two's-complement
reinterpretation (values at or above 2^31 come out negative). -/
def u32_as_i32 (n : Nat) : Int :=
  if n < 2 ^ 31 then (n : Int) else (n : Int) - 2 ^ 32

/-- `ActorState::remove_hp` (actor_state.rs lines 317-325). The Rust body is
`if hp as i32 > self.hp { self.hp = 0 } else { self.hp -= hp as i32 }` with
`hp : u32` and `self.hp : i32`: the clamp test compares the *cast* amount.
The subtraction in the else branch is modelled as exact integer
subtraction; in Rust it is `i32` arithmetic whose overflow is a program
error (it panics in debug builds and wraps in release builds), which is
reachable exactly when the cast amount is negative, i.e. the amount is at
or above 2^31. -/
def ActorState.remove_hp (s : ActorState) (hp : Nat) : ActorState :=
  if u32_as_i32 hp > s.hp then { s with hp := 0 }
  else { s with hp := s.hp - u32_as_i32 hp }

/-- The stat recompute pipeline of `ActorState::compute_stats`
(actor_state.rs lines 373-427), factored as a pure function of the sources
it reads: the authored actor record, the equipped inventory, the active
effects and the rules. It rebuilds the snapshot from `StatList::new`:
base initiative, race base stats, per-level class bonuses, equipped-item
bonuses while collecting weapon attacks, the dual-wield multiplier
selection, effect bonuses, and the terminal `finalize`. (The image-layer
rebuild in the same Rust method is rendering-only and omitted.) -/
def compute_stat_list (rules : Rules) (actor : Actor) (inventory : Inventory)
    (effects : List Effect) : StatList :=
  let stats := StatList.new actor.attributes
  let stats := { stats with initiative := rules.base_initiative }
  let stats := stats.add actor.race.base_stats
  let stats := actor.levels.foldl
    (fun st p => st.add_multiple p.1.bonuses_per_level p.2) stats
  let step := fun (acc : List Attack × StatList) (item : ItemState) =>
    match item.equippable with
    | none => acc
    | some equippable =>
      let attacks := match equippable.bonuses.attack with
        | some attack => acc.1 ++ [attack]
        | none => acc.1
      (attacks, acc.2.add equippable.bonuses)
  let folded := inventory.equipped.foldl step ([], stats)
  let attacks_list := folded.1
  let stats := folded.2
  let final_attacks_multiplier :=
    if attacks_list.isEmpty then
      (match actor.race.base_stats.attack with
       | some attack => [attack]
       | none => [], (1 : Rat))
    else if attacks_list.length > 1 then (attacks_list, rules.dual_wield_damage_multiplier)
    else (attacks_list, (1 : Rat))
  let stats := effects.foldl (fun st e => st.add e.bonuses) stats
  stats.finalize final_attacks_multiplier.1 final_attacks_multiplier.2 rules.base_attribute

/-- `ActorState::compute_stats`: install the freshly rebuilt snapshot and
refresh the level-up flag (`get_xp_for_next_level(total_level) <= xp`).
The new `stats` value is `compute_stat_list` of the current sources; the
previous `stats` field is not an input. -/
def ActorState.compute_stats (rules : Rules) (s : ActorState) : ActorState :=
  { s with
    stats := compute_stat_list rules s.actor s.inventory s.effects
    has_level_up := decide (rules.xp_for_next_level s.actor.total_level ≤ s.xp) }

/-- `ActorState::add_xp` (actor_state.rs lines 285-288): add xp, then a full
stat recompute. -/
def ActorState.add_xp (rules : Rules) (s : ActorState) (xp : Nat) : ActorState :=
  ActorState.compute_stats rules { s with xp := s.xp + xp }

/-- `ActorState::add_effect` (actor_state.rs lines 345-351): push the effect,
then a full stat recompute. -/
def ActorState.add_effect (rules : Rules) (s : ActorState) (effect : Effect) : ActorState :=
  ActorState.compute_stats rules { s with effects := s.effects ++ [effect] }

/-- `ActorState::update` (actor_state.rs lines 327-343): tick every effect,
retain only the non-expired ones, tick every ability-state, and run a full
stat recompute exactly when the effect list's length changed. -/
def ActorState.update (rules : Rules) (s : ActorState) (millis_elapsed : Nat) : ActorState :=
  let start_len := s.effects.length
  let effects := (s.effects.map (fun e => e.update millis_elapsed)).filter
    (fun e => !e.is_removal)
  let ability_states := s.ability_states.map (fun p => (p.1, p.2.update millis_elapsed))
  let ticked := { s with effects := effects, ability_states := ability_states }
  if start_len ≠ effects.length then ticked.compute_stats rules else ticked

/-- `ActorState::init` (actor_state.rs lines 353-355): set hp from the
computed max. -/
def ActorState.init (s : ActorState) : ActorState :=
  { s with hp := s.stats.max_hp }

/-- `ActorState::level_up` (actor_state.rs lines 106-117): install the new
actor record, re-insert an ability-state for every active ability (a change
to the ability-state set), then a full stat recompute followed by `init`. -/
def ActorState.level_up (rules : Rules) (s : ActorState) (new_actor : Actor) : ActorState :=
  let s := { s with actor := new_actor }
  let reinserted := new_actor.abilities.foldl
    (fun states ability =>
      match ability.active with
      | none => states
      | some _ => assoc_insert states ability.id (AbilityState.new ability))
    s.ability_states
  let s := { s with ability_states := reinserted }
  ActorState.init (ActorState.compute_stats rules s)

/-- An entity in the area (sulis_state's EntityState, not among the provided
sources), restricted to what the embedded operations touch: the actor state
and the location read by death handling; `EntityState::remove_hp` forwards
to the actor's. -/
structure EntityState where
  actor : ActorState
  location : Point
deriving DecidableEq, Repr

/-- Rust's `Debug` formatting of a hit kind, as used by
`format!("{:?}: {}", hit_kind, total)` in the attack loop. -/
def hitKindStr : HitKind → String
  | HitKind.Miss => "Miss"
  | HitKind.Graze => "Graze"
  | HitKind.Hit => "Hit"
  | HitKind.Crit => "Crit"

/-- `ActorState::check_death` (actor_state.rs lines 243-279): when the target
is at or below zero hp, award the reward xp to the attacker (a stat
recompute via `add_xp`), then, when a loot table and the configured loot
drop prop both exist, roll loot (`loot.generate_with_chance`, an oracle
here since the loot table source is not provided) and spawn a prop with the
rolled items at the target's location. `module_props` stands for the
module's prop registry consulted by `Module::prop`. -/
def ActorState.check_death (rules : Rules) (module_props : List String)
    (loot_oracle : Loot → Nat → List String)
    (s : ActorState) (target : EntityState) (area : AreaState) :
    ActorState × AreaState :=
  if target.actor.hp > 0 then (s, area)
  else
    match target.actor.actor.reward with
    | none => (s, area)
    | some reward =>
      let s := ActorState.add_xp rules s reward.xp
      match reward.loot with
      | none => (s, area)
      | some loot =>
        if module_props.contains rules.loot_drop_prop then
          let items := loot_oracle loot reward.loot_chance
          if items.isEmpty then (s, area)
          else
            let prop_data : PropData :=
              { prop := rules.loot_drop_prop, location := target.location, items := items }
            (s, { area with props := area.props ++ [prop_data] })
        else (s, area)

/-- `ActorState::attack` (actor_state.rs lines 138-190). An attack against a
target already at or below zero hit points returns `("Miss", GRAY)` at once;
otherwise every attack the attacker's stats carry is resolved in order: an
attack roll (`roll_oracle` supplies the i-th random roll) against the
target's defense, the tier's damage multiplier, a damage roll
(`damage_oracle` abstracts `Attack::roll_damage`, which applies armor
mitigation, and receives the multiplier), hp removal on the target and
accumulation of the report string, then `check_death`. Returns the report
pair and the updated attacker, target and area. -/
def ActorState.attack (rules : Rules) (module_props : List String)
    (roll_oracle : Nat → Int) (damage_oracle : Nat → Rat → List (String × Nat))
    (loot_oracle : Loot → Nat → List String)
    (s : ActorState) (target : EntityState) (area : AreaState) :
    (String × Color) × ActorState × EntityState × AreaState :=
  if target.actor.hp ≤ 0 then (("Miss", Color.gray), s, target, area)
  else
    let start : Nat × Color × String × Bool × EntityState :=
      (0, Color.gray, "", false, target)
    let folded := s.stats.attacks.foldl
      (fun acc _attack =>
        let (i, color, damage_str, not_first, tgt) := acc
        let damage_str := if not_first then damage_str ++ ", " else damage_str
        let accuracy := s.stats.accuracy
        let defense := tgt.actor.stats.defense
        let hit_kind := rules.attack_roll (roll_oracle i) accuracy defense
        match hit_kind with
        | HitKind.Miss => (i + 1, color, damage_str ++ "Miss", true, tgt)
        | hk =>
          let damage_multiplier :=
            match hk with
            | HitKind.Graze => rules.graze_damage_multiplier
            | HitKind.Hit => rules.hit_damage_multiplier
            | _ => rules.crit_damage_multiplier
          let damage := damage_oracle i damage_multiplier
          if damage.isEmpty then
            (i + 1, color, damage_str ++ hitKindStr hk ++ ": 0", true, tgt)
          else
            let total := (damage.map (fun d => d.2)).sum
            let tgt := { tgt with actor := ActorState.remove_hp tgt.actor total }
            (i + 1, Color.red, damage_str ++ hitKindStr hk ++ ": " ++ toString total,
              true, tgt))
      start
    let target := folded.2.2.2.2
    let color := folded.2.1
    let damage_str := folded.2.2.1
    let after_death := ActorState.check_death rules module_props loot_oracle s target area
    ((damage_str, color), after_death.1, target, after_death.2)

/-! ## Script engine (sulis_state/src/script/mod.rs) -/

/-- The errors of the embedded interpreter that the provided sources
construct (rlua's error type, restricted to the two constructors used). -/
inductive RLuaError where
  | FromLuaConversionError (source : String) (target : String) (message : Option String)
  | ToLuaConversionError (source : String) (target : String) (message : Option String)
deriving DecidableEq, Repr

/-- `get_script` (script/mod.rs lines 131-140): the ability's script body,
or a conversion error when the ability has no active payload. -/
def get_script (ability : Ability) : Except RLuaError String :=
  match ability.active with
  | none => Except.error (RLuaError.ToLuaConversionError "Rc<Ability>" "ScriptAbility"
      (some "The Ability is not active"))
  | some active => Except.ok active.script

/-- `ScriptAbility` (script/mod.rs lines 170-189): the read-only ability
descriptor bound into the script globals. The Rust constructor asserts the
ability is active; every caller reaches it only after `get_script` has
succeeded, and the inactive fallback values here are never read. -/
structure ScriptAbility where
  id : String
  name : String
  duration : Nat
  ap : Nat
deriving DecidableEq, Repr

/-- `ScriptAbility::from(ability)`. -/
def ScriptAbility.from_ability (ability : Ability) : ScriptAbility :=
  match ability.active with
  | some active =>
    { id := ability.id, name := ability.name, duration := active.duration, ap := active.ap }
  | none => { id := ability.id, name := ability.name, duration := 0, ap := 0 }

/-- `ScriptEntitySet` (script_entity.rs, not among the provided sources;
modelled from the spec's `EntitySet`): the parent handle, the ordered
optional target handles and an optional selected point. -/
structure ScriptEntitySet where
  parent : Nat
  indices : List (Option Nat)
  point : Option (Int × Int)
deriving DecidableEq, Repr

/-- A value bound into the interpreter's global scope by the embedding
(the concrete userdata payloads that script/mod.rs binds). -/
inductive ScriptGlobal where
  | game
  | parent (index : Nat)
  | ability (descriptor : ScriptAbility)
  | targets (set : ScriptEntitySet)
  | extra_arg
deriving DecidableEq, Repr

/-- The interpreter state visible to the embedding: its global bindings. -/
structure ScriptStateM where
  globals : List (String × ScriptGlobal)
deriving DecidableEq, Repr

/-- `lua.globals().set(name, value)`. -/
def ScriptStateM.set (st : ScriptStateM) (name : String) (value : ScriptGlobal) :
    ScriptStateM :=
  { globals := assoc_insert st.globals name value }

/-- `ScriptState::execute_script` (script/mod.rs lines 80-95): bind `parent`,
concatenate the script body with the entry-point call, then load and call
the chunk; loading and calling are the interpreter's work, abstracted as
the `exec` oracle (its errors are the script-execution errors of §7). -/
def ScriptStateM.execute_script (exec : String → String → Except RLuaError Unit)
    (st : ScriptStateM) (parent : Nat) (function_args script function : String) :
    Except RLuaError Unit × ScriptStateM :=
  let st := st.set "parent" (ScriptGlobal.parent parent)
  let full_script := script ++ "\n" ++ function ++ function_args
  (exec full_script function, st)

/-- `ScriptState::ability_script` (script/mod.rs lines 112-128): fetch the
script body first (`get_script(ability)?` — on failure the call aborts
before any global is bound), then bind `ability` and `targets`, the
optional extra argument, and run the entry point through
`execute_script`. -/
def ScriptStateM.ability_script (exec : String → String → Except RLuaError Unit)
    (st : ScriptStateM) (parent : Nat) (ability : Ability) (targets : ScriptEntitySet)
    (arg : Option String) (func : String) : Except RLuaError Unit × ScriptStateM :=
  match get_script ability with
  | Except.error e => (Except.error e, st)
  | Except.ok script =>
    let st := st.set "ability" (ScriptGlobal.ability (ScriptAbility.from_ability ability))
    let st := st.set "targets" (ScriptGlobal.targets targets)
    let args_string := "(parent, ability, targets"
    let with_arg :=
      match arg with
      | some arg_str => (args_string ++ ", " ++ arg_str, st.set arg_str ScriptGlobal.extra_arg)
      | none => (args_string, st)
    let args_string := with_arg.1 ++ ")"
    ScriptStateM.execute_script exec with_arg.2 parent args_string script func

/-- `ScriptState::ability_on_activate` (script/mod.rs lines 97-101). -/
def ScriptStateM.ability_on_activate (exec : String → String → Except RLuaError Unit)
    (st : ScriptStateM) (parent : Nat) (ability : Ability) :
    Except RLuaError Unit × ScriptStateM :=
  ScriptStateM.ability_script exec st parent ability
    { parent := parent, indices := [], point := none } none "on_activate"

/-- `ScriptState::ability_on_target_select` (script/mod.rs lines 103-110). -/
def ScriptStateM.ability_on_target_select (exec : String → String → Except RLuaError Unit)
    (st : ScriptStateM) (parent : Nat) (ability : Ability)
    (targets : List (Option Nat)) (selected_point : Int × Int) :
    Except RLuaError Unit × ScriptStateM :=
  ScriptStateM.ability_script exec st parent ability
    { parent := parent, indices := targets, point := some selected_point }
    none "on_target_select"

/-- The free function `activate` (script/mod.rs lines 207-218), the body of
the script-facing `ability.activate(target)`: resolve the target entity,
spend the ability's AP only when the area's turn timer is active, and in
every case mark the per-actor ability-state for the ability's id activated.
The `try_unwrap` handle resolution is the caller's concern; the embedding
receives the resolved actor state. -/
def script_ability_activate (ability : ScriptAbility) (area : AreaState)
    (target : ActorState) : ActorState :=
  let target :=
    if area.turn_timer_active then ActorState.remove_ap target ability.ap else target
  ActorState.activate_ability_state target ability.id

/-! ## Targeter construction (sulis_state/src/script/targeter.rs) -/

/-- The module's loaded data consulted by `Module::object_size`: the set of
named object-size footprints (the registry itself is not among the provided
sources; only the id lookup is needed). -/
structure ModuleData where
  object_sizes : List String
deriving DecidableEq, Repr

/-- `Module::object_size(id)`: the named footprint, when loaded. -/
def ModuleData.object_size (m : ModuleData) (id : String) : Option String :=
  if m.object_sizes.contains id then some id else none

/-- `Shape` (script/area_targeter.rs, not among the provided sources;
modelled from the spec's closed variant list §3, with the fields the
targeter.rs setters construct). -/
inductive Shape where
  | Single
  | Circle (radius : Rat)
  | Cone (origin_x origin_y : Int) (radius angle : Rat)
  | Line (size : String) (origin_x origin_y : Int)
  | ObjectSize (size : String)
deriving DecidableEq, Repr

/-- `TargeterData` (targeter.rs lines 45-55): the selection-in-progress
record a script builds before activating a targeter. -/
structure TargeterData where
  ability_id : String
  parent : Nat
  selectable : List (Option Nat)
  effectable : List (Option Nat)
  shape : Shape
  show_mouseover : Bool
  free_select : Option Rat
  free_select_must_be_passable : Option String
deriving DecidableEq, Repr

/-- `TargeterData::new` (targeter.rs lines 57-69). -/
def TargeterData.new (parent : Nat) (ability_id : String) : TargeterData :=
  { ability_id := ability_id
    parent := parent
    selectable := []
    effectable := []
    shape := Shape.Single
    show_mouseover := true
    free_select := none
    free_select_must_be_passable := none }

/-- The error value every size-validating setter constructs
(`rlua::Error::FromLuaConversionError` from "String" to "ObjectSize"). -/
def object_size_error : RLuaError :=
  RLuaError.FromLuaConversionError "String" "ObjectSize"
    (some "Size must be the ID of a valid object size")

/-- `set_shape_line` (targeter.rs lines 120-134): validate the named
object-size against loaded module data before assigning the shape; on an
unknown size, return the conversion error and leave the record untouched
(the Rust closure returns `Err` before the assignment to
`targeter.shape`). The pair mirrors the `&mut self`-plus-`Result`
signature: the second component is the record after the call. -/
def TargeterData.set_shape_line (t : TargeterData) (m : ModuleData) (size : String)
    (origin_x origin_y : Int) : Except RLuaError Unit × TargeterData :=
  match m.object_size size with
  | none => (Except.error object_size_error, t)
  | some _ =>
    (Except.ok (), { t with shape := Shape.Line size origin_x origin_y })

/-- `set_shape_object_size` (targeter.rs lines 135-149): same validation as
`set_shape_line`, assigning the object-size shape. -/
def TargeterData.set_shape_object_size (t : TargeterData) (m : ModuleData)
    (size : String) : Except RLuaError Unit × TargeterData :=
  match m.object_size size with
  | none => (Except.error object_size_error, t)
  | some _ => (Except.ok (), { t with shape := Shape.ObjectSize size })

/-- `set_free_select_must_be_passable` (targeter.rs lines 92-106): validate
the named object-size before recording the passability constraint. -/
def TargeterData.set_free_select_must_be_passable (t : TargeterData) (m : ModuleData)
    (val : String) : Except RLuaError Unit × TargeterData :=
  match m.object_size val with
  | none => (Except.error object_size_error, t)
  | some _ => (Except.ok (), { t with free_select_must_be_passable := some val })

/-- `set_shape_circle` (targeter.rs lines 116-119): no size validation. -/
def TargeterData.set_shape_circle (t : TargeterData) (radius : Rat) :
    Except RLuaError Unit × TargeterData :=
  (Except.ok (), { t with shape := Shape.Circle radius })

/-! ## Concrete fixtures used by witness theorems -/

/-- A concrete attribute block. -/
def testAttrs : AttributeList :=
  { strength := 10, dexterity := 10, endurance := 10
    perception := 10, intellect := 10, wisdom := 10 }

/-- A concrete authored actor with no reward and no equipment. -/
def testActor : Actor :=
  { id := "hero"
    name := "Hero"
    attributes := testAttrs
    abilities := []
    race := { base_stats := { attack := none, payload := 0 } }
    levels := []
    total_level := 1
    xp := 0
    reward := none }

/-- A concrete ability-state: AP cost 3, off cooldown. -/
def testAbilityState : AbilityState :=
  { ability_id := "fireball", activate_ap := 3, cooldown := 5000, remaining_duration := 0 }

/-- A concrete actor state with 10 hp, 2 AP and one ability-state. -/
def testState : ActorState :=
  { actor := testActor
    stats := StatList.new testAttrs
    hp := 10
    ap := 2
    xp := 0
    has_level_up := false
    inventory := { equipped := [] }
    effects := []
    ability_states := [("fireball", testAbilityState)] }

/-- A concrete timed effect with 500 ms remaining. -/
def testEffect : Effect :=
  { bonuses := { attack := none, payload := 1 }, total_duration := 1000, remaining := 500 }

/-- `testState` carrying `testEffect`. -/
def testStateWithEffect : ActorState :=
  { testState with effects := [testEffect] }

/-- The script-facing descriptor of the fireball ability (AP cost 3). -/
def testScriptAbility : ScriptAbility :=
  { id := "fireball", name := "Fireball", duration := 5000, ap := 3 }

/-- A concrete entity whose actor is already at zero hit points. -/
def deadTarget : EntityState :=
  { actor := { testState with hp := 0 }, location := { x := 3, y := 4 } }

/-- A concrete empty area with the turn timer running. -/
def testArea : AreaState :=
  { props := [], turn_timer_active := true }

/-! ## Helper lemmas -/

/-- Looking an id up after the in-place activation map of
`activate_ability_state` yields the activated entry. -/
theorem lookup_map_activate (l : List (String × AbilityState)) (id : String) :
    (l.map (fun p => if p.1 = id then (p.1, p.2.activate) else p)).lookup id
      = (l.lookup id).map AbilityState.activate := by
  induction l with
  | nil => rfl
  | cons hd tl ih =>
    obtain ⟨k, v⟩ := hd
    by_cases hk : k = id
    · subst hk
      rw [List.map_cons,
        show (if k = k then (k, v.activate) else (k, v)) = (k, v.activate) from if_pos rfl]
      simp [List.lookup, ih]
    · rw [List.map_cons,
        show (if k = id then (k, v.activate) else (k, v)) = (k, v) from if_neg hk]
      have hbk : (id == k) = false := by
        simp only [beq_eq_false_iff_ne]
        exact Ne.symm hk
      simp [List.lookup, hbk, ih]

/-- `remove_ap` touches only the `ap` field; the ability-state list survives
it unchanged. -/
theorem remove_ap_preserves_ability_states (s : ActorState) (ap : Nat) :
    (ActorState.remove_ap s ap).ability_states = s.ability_states := by
  unfold ActorState.remove_ap
  split_ifs <;> rfl

/-! ## Claim theorems -/

/-- C1: for every roll in [1,100] and every accuracy and defense,
`attack_roll` returns Miss whenever `roll + accuracy < defense`; otherwise,
with `result = roll + accuracy - defense`, it returns Crit when `result` is
at or above `crit_percentile`, else Hit when at or above `hit_percentile`,
else Graze when at or above `graze_percentile`, and Miss below the lowest
threshold. -/
theorem attack_roll_tier_selection (rules : Rules) (roll accuracy defense : Int)
    (hlo : 1 ≤ roll) (hhi : roll ≤ 100) :
    (roll + accuracy < defense → rules.attack_roll roll accuracy defense = HitKind.Miss) ∧
    (defense ≤ roll + accuracy →
      ((rules.crit_percentile : Int) ≤ roll + accuracy - defense →
        rules.attack_roll roll accuracy defense = HitKind.Crit) ∧
      (roll + accuracy - defense < (rules.crit_percentile : Int) →
       (rules.hit_percentile : Int) ≤ roll + accuracy - defense →
        rules.attack_roll roll accuracy defense = HitKind.Hit) ∧
      (roll + accuracy - defense < (rules.crit_percentile : Int) →
       roll + accuracy - defense < (rules.hit_percentile : Int) →
       (rules.graze_percentile : Int) ≤ roll + accuracy - defense →
        rules.attack_roll roll accuracy defense = HitKind.Graze) ∧
      (roll + accuracy - defense < (rules.crit_percentile : Int) →
       roll + accuracy - defense < (rules.hit_percentile : Int) →
       roll + accuracy - defense < (rules.graze_percentile : Int) →
        rules.attack_roll roll accuracy defense = HitKind.Miss)) := by
  unfold Rules.attack_roll
  refine ⟨fun h => by rw [if_pos h], fun hge => ⟨?_, ?_, ?_, ?_⟩⟩ <;>
    intros <;> split_ifs <;> first | rfl | omega

/-- Closed instance of `attack_roll_tier_selection` at roll 55, accuracy 20,
defense 10 under the sample rules. -/
theorem attack_roll_tier_selection_witness :
    (1 : Int) ≤ 55 ∧ (55 : Int) ≤ 100 ∧
      ((10 : Int) ≤ 55 + 20 →
        ((sampleRules.crit_percentile : Int) ≤ 55 + 20 - 10 →
          sampleRules.attack_roll 55 20 10 = HitKind.Crit) ∧
        (55 + 20 - 10 < (sampleRules.crit_percentile : Int) →
         (sampleRules.hit_percentile : Int) ≤ 55 + 20 - 10 →
          sampleRules.attack_roll 55 20 10 = HitKind.Hit) ∧
        (55 + 20 - 10 < (sampleRules.crit_percentile : Int) →
         55 + 20 - 10 < (sampleRules.hit_percentile : Int) →
         (sampleRules.graze_percentile : Int) ≤ 55 + 20 - 10 →
          sampleRules.attack_roll 55 20 10 = HitKind.Graze) ∧
        (55 + 20 - 10 < (sampleRules.crit_percentile : Int) →
         55 + 20 - 10 < (sampleRules.hit_percentile : Int) →
         55 + 20 - 10 < (sampleRules.graze_percentile : Int) →
          sampleRules.attack_roll 55 20 10 = HitKind.Miss)) :=
  ⟨by norm_num, by norm_num,
    (attack_roll_tier_selection sampleRules 55 20 10 (by norm_num) (by norm_num)).2⟩

/-- C2: with ordered thresholds and two non-miss-guard rolls, the selected hit
tier is monotonic non-decreasing in `result = roll + accuracy - defense`. -/
theorem attack_roll_monotone (rules : Rules)
    (roll1 accuracy1 defense1 roll2 accuracy2 defense2 : Int)
    (hord1 : rules.graze_percentile < rules.hit_percentile)
    (hord2 : rules.hit_percentile < rules.crit_percentile)
    (hg1 : defense1 ≤ roll1 + accuracy1)
    (hg2 : defense2 ≤ roll2 + accuracy2)
    (hle : roll1 + accuracy1 - defense1 ≤ roll2 + accuracy2 - defense2) :
    (rules.attack_roll roll1 accuracy1 defense1).tier ≤
      (rules.attack_roll roll2 accuracy2 defense2).tier := by
  unfold Rules.attack_roll
  split_ifs <;> simp only [HitKind.tier] <;> omega

/-- Closed instance of `attack_roll_monotone`: result 35 (Graze) against
result 65 (Hit) under the sample rules. -/
theorem attack_roll_monotone_witness :
    sampleRules.graze_percentile < sampleRules.hit_percentile ∧
    sampleRules.hit_percentile < sampleRules.crit_percentile ∧
    (10 : Int) ≤ 40 + 5 ∧ (20 : Int) ≤ 80 + 5 ∧
    (40 + 5 - 10 : Int) ≤ 80 + 5 - 20 ∧
    (sampleRules.attack_roll 40 5 10).tier ≤ (sampleRules.attack_roll 80 5 20).tier :=
  ⟨by decide, by decide, by norm_num, by norm_num, by norm_num,
    attack_roll_monotone sampleRules 40 5 10 80 5 20 (by decide) (by decide)
      (by norm_num) (by norm_num) (by norm_num)⟩

/-- C3: with accuracy 50, defense 40, thresholds graze 30 / hit 60 / crit 90
and the roll fixed at 50, the outcome is exactly Hit: result 60 equals
`hit_percentile` and lands in the Hit tier, not Crit and not Graze. -/
theorem attack_roll_example_hit :
    sampleRules.attack_roll 50 50 40 = HitKind.Hit ∧
    sampleRules.attack_roll 50 50 40 ≠ HitKind.Crit ∧
    sampleRules.attack_roll 50 50 40 ≠ HitKind.Graze := by
  refine ⟨?_, ?_, ?_⟩ <;> decide

/-- C4: `can_activate(id)` returns true iff an ability-state for the id
exists, the actor's current AP is at least that state's activation cost and
the state reports available; and at the spec's end-to-end example (AP cost
3 with only 2 AP) it returns false. The Rust method takes `&self`, so the
query cannot mutate the actor's AP or any ability-state; the embedding
reflects that by being a pure `Bool`-valued function of the state. -/
theorem can_activate_iff (s : ActorState) (id : String) :
    (ActorState.can_activate s id = true ↔
      ∃ st, s.ability_states.lookup id = some st ∧
        st.activate_ap ≤ s.ap ∧ st.is_available = true) ∧
    ActorState.can_activate testState "fireball" = false := by
  constructor
  · unfold ActorState.can_activate
    cases h : s.ability_states.lookup id with
    | none => simp
    | some st =>
      by_cases hap : s.ap < st.activate_ap
      · simp only [hap, ite_true]
        constructor
        · intro hfalse
          exact absurd hfalse (by simp)
        · rintro ⟨st', hst', hle, _⟩
          injection hst' with hst'
          subst hst'
          omega
      · simp only [hap, ite_false]
        constructor
        · intro hav
          exact ⟨st, rfl, by omega, hav⟩
        · rintro ⟨st', hst', _, hav⟩
          injection hst' with hst'
          subst hst'
          exact hav
  · decide

/-- C5: adding an effect, an effect expiring during `update`, and the
re-insertion of ability-states on `level_up` (the ability-state-set change)
each install a `StatList` that is `compute_stat_list` of the current
sources — a full rebuild — and the result never depends on the previously
stored `StatList` (no incremental patch). -/
theorem stats_fully_rebuilt (rules : Rules) (s t : ActorState) (e : Effect)
    (a : Actor) (millis : Nat) (old : StatList)
    (hlen : (ActorState.update rules t millis).effects.length ≠ t.effects.length) :
    ((ActorState.add_effect rules s e).stats
        = compute_stat_list rules s.actor s.inventory (s.effects ++ [e])) ∧
    ((ActorState.add_effect rules { s with stats := old } e).stats
        = (ActorState.add_effect rules s e).stats) ∧
    ((ActorState.level_up rules s a).stats
        = compute_stat_list rules a s.inventory s.effects) ∧
    ((ActorState.update rules t millis).stats
        = compute_stat_list rules t.actor t.inventory
            ((t.effects.map (fun ef => ef.update millis)).filter (fun ef => !ef.is_removal))) ∧
    ((ActorState.update rules { t with stats := old } millis).stats
        = (ActorState.update rules t millis).stats) := by
  have hfiltered : ∀ (u : ActorState), (ActorState.update rules u millis).effects
      = (u.effects.map (fun ef => ef.update millis)).filter (fun ef => !ef.is_removal) := by
    intro u
    simp only [ActorState.update]
    split_ifs <;> rfl
  have hcond : t.effects.length
      ≠ ((t.effects.map (fun ef => ef.update millis)).filter (fun ef => !ef.is_removal)).length := by
    rw [hfiltered t] at hlen
    omega
  refine ⟨rfl, rfl, rfl, ?_, ?_⟩
  · simp only [ActorState.update]
    rw [if_pos hcond]
    rfl
  · simp only [ActorState.update]
    rw [if_pos hcond, if_pos hcond]
    rfl

/-- Closed instance of `stats_fully_rebuilt`: under the sample rules, ticking
`testStateWithEffect` by 1000 ms expires its one effect (length 1 becomes
0), and adding `testEffect` to `testState` rebuilds the snapshot from the
post-change sources. -/
theorem stats_fully_rebuilt_witness :
    (ActorState.update sampleRules testStateWithEffect 1000).effects.length
        ≠ testStateWithEffect.effects.length ∧
    (ActorState.add_effect sampleRules testState testEffect).stats
        = compute_stat_list sampleRules testState.actor testState.inventory
            (testState.effects ++ [testEffect]) :=
  ⟨by decide,
    (stats_fully_rebuilt sampleRules testState testStateWithEffect testEffect testActor
      1000 (StatList.new testAttrs) (by decide)).1⟩

/-- C6: for every attacker and every target already at or below zero hit
points, `ActorState::attack` returns the `("Miss", GRAY)` default and
changes nothing: no attack roll is consumed, no hit points are removed, and
death handling never runs — for every choice of the roll, damage and loot
oracles the result is the same and all three states come back unchanged;
no error is reported (the function is total). -/
theorem attack_dead_target_is_noop (rules : Rules) (module_props : List String)
    (roll_oracle : Nat → Int) (damage_oracle : Nat → Rat → List (String × Nat))
    (loot_oracle : Loot → Nat → List String) (s : ActorState) (target : EntityState)
    (area : AreaState) (h : target.actor.hp ≤ 0) :
    ActorState.attack rules module_props roll_oracle damage_oracle loot_oracle s target area
      = (("Miss", Color.gray), s, target, area) := by
  unfold ActorState.attack
  rw [if_pos h]

/-- Closed instance of `attack_dead_target_is_noop` at a target with 0 hp. -/
theorem attack_dead_target_is_noop_witness :
    deadTarget.actor.hp ≤ 0 ∧
    ActorState.attack sampleRules [] (fun _ => 50) (fun _ _ => []) (fun _ _ => [])
        testState deadTarget testArea
      = (("Miss", Color.gray), testState, deadTarget, testArea) :=
  ⟨by decide,
    attack_dead_target_is_noop sampleRules [] (fun _ => 50) (fun _ _ => []) (fun _ _ => [])
      testState deadTarget testArea (by decide)⟩

/-- C7: when the named object-size is absent from loaded module data,
`set_shape_line`, `set_shape_object_size` and
`set_free_select_must_be_passable` each return the conversion error at
targeter-construction time and leave the `TargeterData` — its shape and its
flags — exactly as it was. -/
theorem shape_setters_reject_unknown_size (t : TargeterData) (m : ModuleData)
    (size : String) (origin_x origin_y : Int) (h : m.object_size size = none) :
    TargeterData.set_shape_line t m size origin_x origin_y
        = (Except.error object_size_error, t) ∧
    TargeterData.set_shape_object_size t m size
        = (Except.error object_size_error, t) ∧
    TargeterData.set_free_select_must_be_passable t m size
        = (Except.error object_size_error, t) := by
  refine ⟨?_, ?_, ?_⟩ <;>
    simp only [TargeterData.set_shape_line, TargeterData.set_shape_object_size,
      TargeterData.set_free_select_must_be_passable, h]

/-- Closed instance of `shape_setters_reject_unknown_size`: an empty module
registry rejects the size id "2by2" and the fresh targeter is unchanged. -/
theorem shape_setters_reject_unknown_size_witness :
    ModuleData.object_size { object_sizes := [] } "2by2" = none ∧
    TargeterData.set_shape_line (TargeterData.new 0 "fireball") { object_sizes := [] }
        "2by2" 1 2
      = (Except.error object_size_error, TargeterData.new 0 "fireball") :=
  ⟨by decide,
    (shape_setters_reject_unknown_size (TargeterData.new 0 "fireball") { object_sizes := [] }
      "2by2" 1 2 (by decide)).1⟩

/-- C8: invoking `ability_script` — and hence the `on_activate` and
`on_target_select` entry points — for an ability with no active script body
returns the recoverable conversion error to the caller, and the interpreter
state comes back exactly as it was: the activation aborts before any global
is bound and before any script text is assembled or run, for every exec
oracle (so no script-execution effect can occur and nothing terminates). -/
theorem ability_script_no_body_aborts (exec : String → String → Except RLuaError Unit)
    (st : ScriptStateM) (parent : Nat) (ability : Ability) (targets : ScriptEntitySet)
    (arg : Option String) (func : String) (tlist : List (Option Nat)) (pt : Int × Int)
    (h : ability.active = none) :
    ScriptStateM.ability_script exec st parent ability targets arg func
        = (Except.error (RLuaError.ToLuaConversionError "Rc<Ability>" "ScriptAbility"
            (some "The Ability is not active")), st) ∧
    ScriptStateM.ability_on_activate exec st parent ability
        = (Except.error (RLuaError.ToLuaConversionError "Rc<Ability>" "ScriptAbility"
            (some "The Ability is not active")), st) ∧
    ScriptStateM.ability_on_target_select exec st parent ability tlist pt
        = (Except.error (RLuaError.ToLuaConversionError "Rc<Ability>" "ScriptAbility"
            (some "The Ability is not active")), st) := by
  refine ⟨?_, ?_, ?_⟩ <;>
    simp only [ScriptStateM.ability_on_activate, ScriptStateM.ability_on_target_select,
      ScriptStateM.ability_script, get_script, h]

/-- Closed instance of `ability_script_no_body_aborts` at a passive ability
and an empty interpreter state. -/
theorem ability_script_no_body_aborts_witness :
    (Ability.active { id := "passive", name := "Passive", active := none } = none) ∧
    ScriptStateM.ability_on_activate (fun _ _ => Except.ok ()) { globals := [] } 7
        { id := "passive", name := "Passive", active := none }
      = (Except.error (RLuaError.ToLuaConversionError "Rc<Ability>" "ScriptAbility"
          (some "The Ability is not active")), { globals := [] }) :=
  ⟨rfl,
    (ability_script_no_body_aborts (fun _ _ => Except.ok ()) { globals := [] } 7
      { id := "passive", name := "Passive", active := none }
      { parent := 7, indices := [], point := none } none "on_activate" [] (0, 0) rfl).2.1⟩

/-- C9: the script-facing `ability.activate(target)` removes the ability's
AP cost from the target's actor (through saturating `remove_ap`) exactly
when the turn timer is active, and in every case — turn active or not —
marks the per-actor ability-state for the ability's id activated, i.e. its
cooldown starts (unavailable whenever the cooldown is positive). -/
theorem script_activate_spends_ap_iff_turn_active (ability : ScriptAbility)
    (area : AreaState) (s : ActorState) (st : AbilityState)
    (h : s.ability_states.lookup ability.id = some st) :
    (area.turn_timer_active = true →
      (script_ability_activate ability area s).ap
        = if ability.ap > s.ap then 0 else s.ap - ability.ap) ∧
    (area.turn_timer_active = false →
      (script_ability_activate ability area s).ap = s.ap) ∧
    (script_ability_activate ability area s).ability_states.lookup ability.id
        = some (AbilityState.activate st) ∧
    (0 < st.cooldown → (AbilityState.activate st).is_available = false) := by
  have hstates : (script_ability_activate ability area s).ability_states
      = s.ability_states.map
          (fun p => if p.1 = ability.id then (p.1, p.2.activate) else p) := by
    cases hturn : area.turn_timer_active with
    | false =>
      simp only [script_ability_activate, ActorState.activate_ability_state, hturn,
        Bool.false_eq_true, if_false]
    | true =>
      simp only [script_ability_activate, ActorState.activate_ability_state, hturn, if_true]
      rw [remove_ap_preserves_ability_states]
  refine ⟨?_, ?_, ?_, ?_⟩
  · intro hturn
    simp only [script_ability_activate, ActorState.activate_ability_state,
      ActorState.remove_ap, hturn, if_true]
    split_ifs <;> rfl
  · intro hturn
    simp only [script_ability_activate, ActorState.activate_ability_state, hturn,
      Bool.false_eq_true, if_false]
  · rw [hstates, lookup_map_activate, h]
    rfl
  · intro hcd
    simp [AbilityState.is_available, AbilityState.activate]
    omega

/-- Closed instance of `script_activate_spends_ap_iff_turn_active`: the
fireball state (cost 3, cooldown 5000) of `testState`, with the turn timer
running. -/
theorem script_activate_spends_ap_iff_turn_active_witness :
    testState.ability_states.lookup "fireball" = some testAbilityState ∧
    (script_ability_activate testScriptAbility testArea testState).ability_states.lookup
        "fireball" = some (AbilityState.activate testAbilityState) :=
  ⟨by decide,
    (script_activate_spends_ap_iff_turn_active testScriptAbility testArea testState
      testAbilityState (by decide)).2.2.1⟩

/-- C10 counterexample: the claim fails as stated. With 10 hp, removing
2147483648 (= 2^31) hit points — an amount that exceeds the stored value —
does not clamp hp to 0: Rust's `hp as i32` cast wraps the amount to
-2147483648, so the clamp branch is skipped and the code subtracts a
negative amount (`i32` overflow: a panic in debug builds, hp wrapping to
the negative -2147483638 in release builds; under the exact-arithmetic
model of that subtraction the stored hp becomes 2147483658 — in no
semantics is it 0). -/
theorem remove_hp_huge_amount_not_clamped :
    (2147483648 : Nat) > 10 ∧ testState.hp = 10 ∧
    (ActorState.remove_hp testState 2147483648).hp = 2147483658 ∧
    (ActorState.remove_hp testState 2147483648).hp ≠ 0 := by
  refine ⟨by norm_num, rfl, by decide, by decide⟩

/-- C10 amended: for every actor state with non-negative HP, and every
amount below 2^31 (any amount representable as a non-negative `i32` — for
larger amounts the `u32 as i32` cast wraps negative and the clamp test is
skipped), `remove_hp` sets hp to exactly 0 when the amount exceeds the
stored value and decrements it otherwise, never driving it below zero; and
`remove_ap`, whose arithmetic stays in `u32`, clamps the same way for every
u32 amount (`ap_amount` here is unrestricted), so AP is never negative
after any call. -/
theorem remove_hp_ap_clamp (s : ActorState) (amount ap_amount : Nat)
    (hhp : 0 ≤ s.hp) (hamount : amount < 2 ^ 31) :
    ((ActorState.remove_hp s amount).hp
        = if (amount : Int) > s.hp then 0 else s.hp - amount) ∧
    0 ≤ (ActorState.remove_hp s amount).hp ∧
    ((ActorState.remove_ap s ap_amount).ap
        = if ap_amount > s.ap then 0 else s.ap - ap_amount) := by
  have hcast : u32_as_i32 amount = (amount : Int) := by
    unfold u32_as_i32
    rw [if_pos hamount]
  refine ⟨?_, ?_, ?_⟩
  · unfold ActorState.remove_hp
    rw [hcast]
    split_ifs <;> rfl
  · unfold ActorState.remove_hp
    rw [hcast]
    split_ifs with hgt
    · simp
    · simp only []
      simp at hgt ⊢
      omega
  · unfold ActorState.remove_ap
    split_ifs <;> rfl

/-- Closed instance of `remove_hp_ap_clamp`: removing 3 hp from `testState`
(10 hp), and removing 2147483648 (= 2^31, beyond the i32-representable
range) ap from its 2 ap, which clamps to 0. -/
theorem remove_hp_ap_clamp_witness :
    (0 : Int) ≤ testState.hp ∧ (3 : Nat) < 2 ^ 31 ∧
    ((ActorState.remove_hp testState 3).hp
        = if (3 : Int) > testState.hp then 0 else testState.hp - 3) ∧
    ((ActorState.remove_ap testState 2147483648).ap
        = if 2147483648 > testState.ap then 0 else testState.ap - 2147483648) :=
  ⟨by decide, by norm_num,
    (remove_hp_ap_clamp testState 3 2147483648 (by decide) (by norm_num)).1,
    (remove_hp_ap_clamp testState 3 2147483648 (by decide) (by norm_num)).2.2⟩

end Sulis
